import Mathlib

/-!
Shallow embedding of the agent execution engine of the Simple-Ai-agent
repository: the decision state machine (`agent_loop/decide.py`), the run
accounting record (`context/run_context.py`), the quality checker
(`quality.py`), the graceful-stop formatter (`graceful_stop.py`), the tool
pipeline (`tools/core/{selector,guardrails,executor,registry}.py`), the
orchestration loop (`agent_loop/loop.py`), the shell session manager
(`tools/shell.py`) and the confirmation gate of the API route
(`api/routes.py`).

Modelling conventions, used throughout:
* Python strings are Lean `String`s; character-level operations are done on
  `String.data` (`List Char`).  Unicode-sensitive Python operations
  (`str.lower`, `\b` word boundaries, `str.strip`) are modelled at ASCII
  precision, which covers every string the claims touch.
* Python floats (the cost counters) are modelled as rationals `ℚ`; no claim
  depends on rounding of float arithmetic.
* Wall-clock readings (`time.time`, `datetime.utcnow`, `time.monotonic`) are
  external inputs: each function that reads the clock takes the reading (or a
  stream of readings) as an explicit argument.
* Calls that leave the repository (the language model, `json.loads`,
  subprocess I/O, tool handlers) are oracles: explicit function arguments
  whose behaviour is universally quantified in the theorems.
-/

namespace Agent

/-! ## Python string primitives -/

/-- Characters stripped by Python `str.strip()` (ASCII whitespace). -/
def isPySpace (c : Char) : Bool :=
  c == ' ' || c == '\t' || c == '\n' || c == '\r' || c == '\x0b' || c == '\x0c'

/-- Python `str.strip()`. -/
def pyStrip (s : String) : String :=
  ⟨((s.data.dropWhile isPySpace).reverse.dropWhile isPySpace).reverse⟩

/-- Python truthiness of an `Optional[str]`: `None` and `""` are falsy. -/
def strTruthy : Option String → Bool
  | none => false
  | some s => !s.data.isEmpty

/-- Python `str(x)` for an `Optional[str]`: `None` prints as `"None"`. -/
def pyShowOptStr : Option String → String
  | none => "None"
  | some s => s

/-- ASCII lower-casing of one character (Python `str.lower`, ASCII fragment). -/
def pyLowerChar (c : Char) : Char :=
  if 'A' ≤ c ∧ c ≤ 'Z' then Char.ofNat (c.toNat + 32) else c

/-- Python `str.lower()` (ASCII fragment). -/
def pyLower (s : String) : String := ⟨s.data.map pyLowerChar⟩

/-- Word character for the `\b` regex boundary (ASCII fragment of `\w`). -/
def isWordChar (c : Char) : Bool :=
  ('a' ≤ c && c ≤ 'z') || ('A' ≤ c && c ≤ 'Z') || ('0' ≤ c && c ≤ '9') || c == '_'

/-- `pat.isPrefixOf txt` for char lists, via `List.isPrefixOf` (BEq on `Char`). -/
def listPre (pat txt : List Char) : Bool := List.isPrefixOf pat txt

/-- Python `pat in txt` (substring containment). -/
def containsSub (pat : List Char) : List Char → Bool
  | [] => pat.isEmpty
  | c :: rest => listPre pat (c :: rest) || containsSub pat rest

/-- Python `txt.index(pat)`: position of the first occurrence, if any. -/
def firstIdx (pat : List Char) : List Char → Option Nat
  | [] => if pat.isEmpty then some 0 else none
  | c :: rest =>
    if listPre pat (c :: rest) then some 0
    else (firstIdx pat rest).map (· + 1)

/-- Scanner for `countSub`: `skip` is the number of positions still covered
by the previous match (so occurrences are counted non-overlapping). -/
def countSubGo (pat : List Char) : Nat → List Char → Nat
  | _, [] => 0
  | 0, c :: rest =>
    if listPre pat (c :: rest) then 1 + countSubGo pat (pat.length - 1) rest
    else countSubGo pat 0 rest
  | s + 1, _ :: rest => countSubGo pat s rest

/-- Python `txt.count(pat)` (non-overlapping occurrences), for nonempty
`pat`: after a hit the scan resumes past the matched occurrence. -/
def countSub (pat txt : List Char) : Nat := countSubGo pat 0 txt

/-- One regex alternative `\b w \b` at the head position of `txt`, with `pre`
the character to the left (none at the start of the string). -/
def wordAtHead (w : List Char) (pre : Option Char) (txt : List Char) : Bool :=
  (match pre with | none => true | some p => !isWordChar p)
  && listPre w txt
  && (match (txt.drop w.length).head? with | none => true | some c => !isWordChar c)

/-- `re.search` of `\b w \b` anywhere in `txt` (ASCII `\b`). -/
def hasWordOccurAux (w : List Char) : Option Char → List Char → Bool
  | _, [] => false
  | pre, c :: rest => wordAtHead w pre (c :: rest) || hasWordOccurAux w (some c) rest

/-- Does any of the alternatives `ws` occur in `txt` with word boundaries? -/
def hasWordAlt (ws : List String) (txt : List Char) : Bool :=
  ws.any fun w => hasWordOccurAux w.data none txt

/-- The backtick character (0x60). -/
def tickChar : Char := Char.ofNat 96

/-! ## RunContext (`context/run_context.py`)

`start_time` / `elapsed_seconds` read the wall clock, which is external: the
timed-out reading is passed explicitly wherever the source consults
`is_timed_out`.  The memory-tracking field `memories_written` is carried
as a list of strings; identity fields (`run_id`, `session_id`) are strings. -/

structure RunContext where
  session_id : String := ""
  run_id : String := ""
  max_time_seconds : Nat := 180
  max_tool_calls : Nat := 15
  max_tokens_per_request : Nat := 64000
  max_cost_per_request : ℚ := 5
  tool_calls_count : Nat := 0
  total_tokens_used : Nat := 0
  current_cost : ℚ := 0
  completed : Bool := false
  stopped : Bool := false
  stop_reason : String := ""
deriving DecidableEq

/-- `RunContext.has_budget_remaining`: false iff any counter has reached its
limit (tool calls, tokens, cost), checked in that order. -/
def RunContext.has_budget_remaining (ctx : RunContext) : Bool :=
  if ctx.tool_calls_count ≥ ctx.max_tool_calls then false
  else if ctx.total_tokens_used ≥ ctx.max_tokens_per_request then false
  else if ctx.current_cost ≥ ctx.max_cost_per_request then false
  else true

/-- `RunContext.record_tool_call`. -/
def RunContext.record_tool_call (ctx : RunContext) : RunContext :=
  { ctx with tool_calls_count := ctx.tool_calls_count + 1 }

/-- `RunContext.record_tokens`. -/
def RunContext.record_tokens (ctx : RunContext) (tokens : Nat) : RunContext :=
  { ctx with total_tokens_used := ctx.total_tokens_used + tokens }

/-- `RunContext.record_cost`. -/
def RunContext.record_cost (ctx : RunContext) (cost : ℚ) : RunContext :=
  { ctx with current_cost := ctx.current_cost + cost }

/-- `RunContext.mark_stopped`. -/
def RunContext.mark_stopped (ctx : RunContext) (reason : String) : RunContext :=
  { ctx with stopped := true, stop_reason := reason }

/-- `RunContext.mark_completed`. -/
def RunContext.mark_completed (ctx : RunContext) : RunContext :=
  { ctx with completed := true }

/-- Fixed two-decimal rendering of a cost (approximates Python `f"{c:.2f}"`;
no claim inspects this string). -/
def formatCost (c : ℚ) : String :=
  let cents : Int := Int.floor (c * 100)
  toString (cents / 100) ++ "." ++
    (let r := (cents % 100).toNat
     (if r < 10 then "0" else "") ++ toString r)

/-- `RunContext.get_budget_exceeded_reason`: names the first exceeded
dimension in the order tool calls, tokens, cost. -/
def RunContext.get_budget_exceeded_reason (ctx : RunContext) : String :=
  if ctx.tool_calls_count ≥ ctx.max_tool_calls then
    "Tool call limit reached (" ++ toString ctx.tool_calls_count ++ "/" ++
      toString ctx.max_tool_calls ++ "). Increase MAX_TOOL_CALLS in .env"
  else if ctx.total_tokens_used ≥ ctx.max_tokens_per_request then
    "Token limit reached (used " ++ toString ctx.total_tokens_used ++ ", limit " ++
      toString ctx.max_tokens_per_request ++ "). Increase MAX_TOKENS_PER_REQUEST in .env"
  else if ctx.current_cost ≥ ctx.max_cost_per_request then
    "Cost limit reached ($" ++ formatCost ctx.current_cost ++ ", limit $" ++
      formatCost ctx.max_cost_per_request ++ "). Increase MAX_COST_PER_REQUEST in .env"
  else "Budget exhausted"

/-! ## Settings (`config.py`)

Only the fields the core consults.  `disable_restraints` and
`require_user_confirm` are both computed from `agent_mode == "free"`;
`allowed_tools` is parsed from the comma-separated `allowed_tools_str`
(`""` or `"*"` meaning: no restriction). -/

structure Settings where
  max_tool_calls : Nat := 15
  max_time_seconds : Nat := 180
  max_tokens_per_request : Nat := 64000
  max_cost_per_request : ℚ := 5
  agent_mode_free : Bool := true
  allowed_tools_str : String := "*"
deriving DecidableEq

/-- `Settings.disable_restraints`: true when `agent_mode` is `"free"`. -/
def Settings.disable_restraints (s : Settings) : Bool := s.agent_mode_free

/-- `Settings.require_user_confirm`: true when `agent_mode` is `"free"`. -/
def Settings.require_user_confirm (s : Settings) : Bool := s.agent_mode_free

/-- Split a char list at commas (Python `str.split(",")`). -/
def splitCommaAux (cur : List Char) : List Char → List (List Char)
  | [] => [cur.reverse]
  | c :: rest =>
    if c == ',' then cur.reverse :: splitCommaAux [] rest
    else splitCommaAux (c :: cur) rest

/-- `Settings.allowed_tools`: parsed allow-list; empty or `"*"` means all. -/
def Settings.allowed_tools (s : Settings) : List String :=
  let t := pyStrip s.allowed_tools_str
  if t = "" ∨ t = "*" then []
  else ((splitCommaAux [] s.allowed_tools_str.data).map
    (fun l => pyStrip ⟨l⟩)).filter (fun x => x ≠ "")

/-! ## Decision Engine (`agent_loop/decide.py`) -/

inductive Action where
  | CLARIFY
  | CALL_LLM
  | CALL_TOOL
  | FINISH
deriving DecidableEq

/-- A Python value inside a tool-argument mapping.  Only string values occur
in the scenarios the claims exercise; `str(v)` and `repr(v)` differ on
strings (the latter adds quotes). -/
inductive PyVal where
  | str (s : String)
deriving DecidableEq

def pyStrVal : PyVal → String
  | .str s => s

def pyReprVal : PyVal → String
  | .str s => "'" ++ s ++ "'"

/-- An argument mapping (`Dict[str, Any]`), as an ordered association list. -/
def ArgDict := List (String × PyVal)
deriving instance DecidableEq for ArgDict

/-- Python `str(d)` of a dict with string keys. -/
def pyStrDict (d : ArgDict) : String :=
  "\x7b" ++ String.intercalate ", "
    (d.map fun kv => "'" ++ kv.1 ++ "': " ++ pyReprVal kv.2) ++ "\x7d"

/-- Raw tool-call request as it arrives from the model (selector input).
`id`/`name` may be missing; `arguments` may be missing, a raw string (to be
JSON-parsed) or already a mapping. -/
inductive RawArgs where
  | absent
  | strVal (s : String)
  | dictVal (d : ArgDict)
deriving DecidableEq

structure RawToolCall where
  id : Option String := none
  name : Option String := none
  arguments : RawArgs := .absent
deriving DecidableEq

/-- Decision record (`agent_loop/decide.py::Decision`). -/
structure Decision where
  action : Action
  question : Option String := none
  tool_calls : Option (List RawToolCall) := none
  final_answer : Option String := none
deriving DecidableEq

/-- The question heuristic of `DecideModule.decide`: the stripped content
ends with `?` and contains a `?` within its first 100 characters. -/
def looksLikeQuestion (content : String) : Bool :=
  (content.data.getLast? == some '?') && (content.data.take 100).contains '?'

/-- The model's last response as the loop stores it: `content` plus
`tool_calls` (a missing/`None` list is the empty list, both are falsy). -/
structure LastResp where
  content : Option String := none
  tool_calls : List RawToolCall := []
deriving DecidableEq

/-- `DecideModule.decide`.  `is_timed_out` is the wall-clock comparison
`run_context.is_timed_out`, passed as an explicit reading.  `user_message`
is unused by the source body but kept for fidelity. -/
def DecideModule.decide (_user_message : String) (ctx : RunContext)
    (is_timed_out : Bool) (current_step : Nat)
    (last_llm_response : Option LastResp) (has_tool_results : Bool) : Decision :=
  if ctx.has_budget_remaining = false then
    { action := .FINISH, final_answer := some "Budget exhausted. Stopping gracefully." }
  else if is_timed_out then
    { action := .FINISH, final_answer := some "Time limit reached. Stopping gracefully." }
  else if current_step = 0 then
    { action := .CALL_LLM }
  else
    match last_llm_response with
    | some r =>
      if !r.tool_calls.isEmpty then
        { action := .CALL_TOOL, tool_calls := some r.tool_calls }
      else if strTruthy r.content then
        let content := pyStrip (r.content.getD "")
        if looksLikeQuestion content then
          { action := .CLARIFY, question := some content }
        else
          { action := .FINISH, final_answer := some content }
      else if has_tool_results then
        { action := .CALL_LLM }
      else
        { action := .FINISH, final_answer := some "Task completed." }
    | none =>
      if has_tool_results then
        { action := .CALL_LLM }
      else
        { action := .FINISH, final_answer := some "Task completed." }

/-! ## Quality checker (`quality.py`) -/

structure QualityResult where
  passed : Bool
  needs_fix : Bool
  reason : String := ""
deriving DecidableEq

/-- `QualityChecker._has_disallowed_content`: a refusal phrase with fewer
than 50 characters remaining after its start. -/
def has_disallowed_content (content : String) : Bool :=
  let lower := (pyLower content).data
  ["i cannot help with", "i can't help with"].any fun phrase =>
    match firstIdx (pyLower phrase).data lower with
    | none => false
    | some idx => content.data.length - idx < 50

/-- `QualityChecker._has_hallucination_markers`: more than 3 of the 4
marker regexes match (each searched case-insensitively with `\b` bounds). -/
def has_hallucination_markers (content : String) : Bool :=
  let lower := (pyLower content).data
  let markers : List (List String) :=
    [["i think", "we think"],
     ["i believe", "we believe"],
     ["i assume", "we assume"],
     ["probably", "likely", "maybe"]]
  let count := (markers.filter fun ws => hasWordAlt ws lower).length
  count > 3

/-- `QualityChecker._has_valid_markdown`: the number of triple-backtick
fences is even. -/
def has_valid_markdown (content : String) : Bool :=
  countSub [tickChar, tickChar, tickChar] content.data % 2 == 0

/-- `QualityChecker.check`.  The argument is the candidate final answer
(`decision.final_answer`), `None`/empty both being the falsy "no content"
case of `if not content`. -/
def QualityChecker.check (content : Option String) : QualityResult :=
  if strTruthy content = false then
    { passed := false, needs_fix := true, reason := "Empty response" }
  else
    let c := content.getD ""
    if has_disallowed_content c then
      { passed := false, needs_fix := true,
        reason := "Content may contain disallowed information" }
    else if has_hallucination_markers c then
      { passed := false, needs_fix := true,
        reason := "Response contains potential hallucination markers" }
    else if has_valid_markdown c = false then
      { passed := false, needs_fix := false,
        reason := "Markdown formatting issues detected" }
    else
      { passed := true, needs_fix := false }

/-! ## Graceful stop (`graceful_stop.py`) -/

/-- `GracefulStop.build_message`. -/
def GracefulStop.build_message (reason : String) : String :=
  String.intercalate "\n"
    ["The agent stopped due to resource constraints.",
     "Reason: " ++ reason,
     "",
     "Partial context was preserved. You can:",
     "1. Continue with a simpler version of your request",
     "2. Break your task into smaller, independent parts",
     "3. Increase budget/time limits if available"]

/-! ## Tool registry (`tools/core/registry.py`, `tools/registry.py`)

The registry maps names to definitions; only the key set is consulted by
`has_tool` and by the not-found check of `execute`, so the registry is
modelled by its (insertion-ordered) name list.  Handlers are external
collaborators: an oracle mapping name and arguments to either a returned
value (already stringified; the `json.dumps`-vs-`str` rendering of the raw
return value is collapsed into that string) or a raised fault's message. -/

/-- `ToolRegistry.has_tool`; a missing (`None`) name is never a key. -/
def ToolRegistry.has_tool (reg : List String) (name : Option String) : Bool :=
  match name with
  | some n => reg.contains n
  | none => false

/-- The names registered by `create_default_registry` (`tools/registry.py`),
one per `tools/*.py` module, in registration order. -/
def defaultRegistryNames : List String :=
  ["echo", "search", "run_python", "open_shell", "run_shell_command",
   "close_shell", "open_shell_window", "stop_server"]

/-- `ToolRegistry.execute`: unknown name raises `ValueError` (modelled as the
error branch); otherwise the handler runs (its fault, if any, is the
handler oracle's error branch). -/
def ToolRegistry.execute (reg : List String)
    (handler : String → ArgDict → Except String String)
    (name : String) (arguments : ArgDict) : Except String String :=
  if reg.contains name = false then
    .error ("Tool '" ++ name ++ "' not found")
  else
    handler name arguments

/-! ## Tool selector (`tools/core/selector.py`) -/

/-- A validated tool call as the selector emits it (`id`, `name` present,
arguments a mapping — `args or {}` turns missing arguments into `{}`). -/
structure SelToolCall where
  id : String
  name : String
  arguments : ArgDict
deriving DecidableEq

/-- The body of the selector's per-request loop iteration: the request is
either accepted into the valid set or yields one error message.
`json_loads` is the external `json.loads`, failing with the exception text. -/
def ToolSelector.classify (json_loads : String → Except String ArgDict)
    (reg : List String) (S : Settings) (tc : RawToolCall) : SelToolCall ⊕ String :=
  let name := tc.name
  let tc_id := tc.id.getD "unknown"
  if ToolRegistry.has_tool reg name = false then
    .inr ("Tool '" ++ pyShowOptStr name ++ "' (id: " ++ tc_id ++ ") not found in registry")
  else
    let n := name.getD ""
    if S.allowed_tools ≠ [] ∧ S.allowed_tools.contains n = false then
      .inr ("Tool '" ++ n ++ "' is not in the allowed tools list")
    else
      match tc.arguments with
      | .strVal s =>
        match json_loads s with
        | .error e => .inr ("Invalid JSON in tool '" ++ n ++ "' arguments: " ++ e)
        | .ok d => .inl { id := tc_id, name := n, arguments := d }
      | .dictVal d => .inl { id := tc_id, name := n, arguments := d }
      | .absent => .inl { id := tc_id, name := n, arguments := [] }

/-- `ToolSelector.select`: processes the requests in order, appending each
to the valid set or to the error list. -/
def ToolSelector.select (json_loads : String → Except String ArgDict)
    (reg : List String) (S : Settings) :
    List RawToolCall → List SelToolCall × List String
  | [] => ([], [])
  | tc :: rest =>
    let r := ToolSelector.select json_loads reg S rest
    match ToolSelector.classify json_loads reg S tc with
    | .inl v => (v :: r.1, r.2)
    | .inr e => (r.1, e :: r.2)

/-! ## Guardrails (`tools/core/guardrails.py`)

The dangerous-content regexes are compiled to explicit token patterns
(`\s` is the ASCII whitespace class; the greedy `\s+`/`\s*` followed by a
non-space literal needs no backtracking).  `_redact_secrets` computes a
redacted copy used only for logging; it does not affect the allow/deny
outcome or anything else the orchestrator consumes, and is not modelled. -/

inductive Tok where
  | lit (s : String)
  | ws1
  | ws0
deriving DecidableEq

/-- Match a token pattern at the head of `txt`. -/
def matchHere : List Tok → List Char → Bool
  | [], _ => true
  | .lit s :: ts, txt => listPre s.data txt && matchHere ts (txt.drop s.data.length)
  | .ws1 :: ts, txt =>
    match txt with
    | c :: rest => isPySpace c && matchHere ts (rest.dropWhile isPySpace)
    | [] => false
  | .ws0 :: ts, txt => matchHere ts (txt.dropWhile isPySpace)

/-- `re.search`: match the pattern at some position of `txt`. -/
def searchPat (ts : List Tok) : List Char → Bool
  | [] => matchHere ts []
  | c :: rest => matchHere ts (c :: rest) || searchPat ts rest

/-- `ToolGuardrails._has_dangerous_content` on the lowered text:
`rm\s+-rf`, `(?:bash|sh)\s+-c`, `eval\s*\(`, `exec\s*\(`. -/
def has_dangerous_content (text : String) : Bool :=
  let lower := (pyLower text).data
  [[Tok.lit "rm", .ws1, .lit "-rf"],
   [Tok.lit "bash", .ws1, .lit "-c"],
   [Tok.lit "sh", .ws1, .lit "-c"],
   [Tok.lit "eval", .ws0, .lit "("],
   [Tok.lit "exec", .ws0, .lit "("]].any fun p => searchPat p lower

structure GuardrailResult where
  allowed : Bool
  reason : String := ""
deriving DecidableEq

/-- `ToolGuardrails.check_args`: dangerous content then size (on
`str(arguments)`); the redacted copy is computed in the source on every
path but consumed by nobody in the core, so it is not carried here. -/
def ToolGuardrails.check_args (_tool_name : String) (arguments : ArgDict) : GuardrailResult :=
  let args_str := pyStrDict arguments
  if has_dangerous_content args_str then
    { allowed := false, reason := "Tool arguments contain potentially dangerous content" }
  else if args_str.data.length > 10000 then
    { allowed := false, reason := "Tool arguments exceed size limit" }
  else
    { allowed := true }

/-! ## Executor and observation builder (`tools/core/executor.py`) -/

structure ToolExecutionResult where
  success : Bool
  content : String
  duration_ms : Nat
  error : Option String := none
deriving DecidableEq

/-- `ToolExecutor.execute`: wraps `registry.execute`, measuring duration
from the clock readings `t0` (at entry) and `t1` (taken in whichever branch
finishes); any fault from the registry or handler becomes a failed result
carrying the fault's message. -/
def ToolExecutor.execute (reg : List String)
    (handler : String → ArgDict → Except String String)
    (tool_name : String) (arguments : ArgDict) (t0 t1 : Nat) : ToolExecutionResult :=
  match ToolRegistry.execute reg handler tool_name arguments with
  | .ok content => { success := true, content := content, duration_ms := t1 - t0 }
  | .error e => { success := false, content := "", duration_ms := t1 - t0, error := some e }

structure ToolObservation where
  summary : String
  raw_payload : Option String
  citation : Option String := none
deriving DecidableEq

/-- `ObservationBuilder.build`.  The optional result-shape suffix of the
success summary (a `json.loads` re-parse of the content adding
`Found N result(s).` / `Echo: ...`) is not modelled: it only decorates the
human-facing summary string and nothing in the core branches on it. -/
def ObservationBuilder.build (tool_name : String) (arguments : ArgDict)
    (result : ToolExecutionResult) : ToolObservation :=
  if result.success then
    let args_summary :=
      String.intercalate ", " (arguments.map fun kv => kv.1 ++ "=" ++ pyStrVal kv.2)
    { summary := "Tool '" ++ tool_name ++ "' called with (" ++ args_summary ++ ") succeeded.",
      raw_payload := some result.content }
  else
    { summary := "Tool '" ++ tool_name ++ "' failed: " ++ pyShowOptStr result.error,
      raw_payload := none }

/-! ## Agent loop (`agent_loop/loop.py`)

`AgentLoop.run` is an iterated pass over a loop state.  External effects:
* the language model (`llm_client.chat_completions`) — an oracle indexed by
  the number of model calls made so far in the run;
* tool execution (`tool_executor.execute`) — an oracle indexed by the
  number of executor invocations so far (§C7 shows the executor is total);
* the wall clock — `is_timed_out` is an oracle indexed by the pass number
  (one reading per pass; the loop-top check and the Decision Engine read
  the same quantity within a pass);
* `json.loads` / `json.dumps` — external serialization oracles.
Pure observation channels with no feedback into control flow are dropped:
progress-event emission, short-term-memory appends, the memory writer
(absent under the default `ltm_enabled=False`), `duration_ms` / `usage`
response decoration, and the OpenAI-format `last_assistant_message_for_api`
(it is only forwarded to the external context builder; its lifecycle
shadows `tool_calls` of the last response, which is modelled). -/

structure LLMResponse where
  content : Option String := none
  tool_calls : List RawToolCall := []
  total_tokens : Nat := 0
deriving DecidableEq

structure Oracles where
  llm : Nat → LLMResponse
  exec : Nat → ToolExecutionResult
  timed_out : Nat → Bool
  json_loads : String → Except String ArgDict
  json_dumps : ArgDict → String

/-- `api/schemas.py::ToolCall`. -/
structure ToolCall where
  id : String
  name : String
  arguments : ArgDict
deriving DecidableEq

/-- `api/schemas.py::ToolResult`. -/
structure ToolResult where
  tool_call_id : String
  name : String
  content : String
  success : Bool
  duration_ms : Nat
deriving DecidableEq

/-- `api/schemas.py::RunStep`. -/
structure RunStep where
  reasoning : Option String
  tool_calls : List ToolCall
  tool_results : List ToolResult
deriving DecidableEq

/-- The `pending_state` blob persisted when confirmation is required:
the original user message and the validated tool-call list (the
`assistant_message` entry is only forwarded to the external context
builder and is not modelled). -/
structure PendingState where
  user_message : String
  tool_calls : List SelToolCall
deriving DecidableEq

structure AgentRunResponse where
  run_id : String
  session_id : String
  message : String
  is_final : Bool
  tool_calls : List ToolCall := []
  tool_results : List ToolResult := []
  steps : List RunStep := []
  requires_confirmation : Bool := false
  pending_state : Option PendingState := none
  next_steps : List String := []
deriving DecidableEq

/-- One entry of `tool_results_history` (the per-turn buffer sent to the
model as tool results). -/
structure HistEntry where
  name : String
  id : String
  tool_call_id : String
  content : String
  raw : Option String
deriving DecidableEq

structure LoopState where
  step : Nat
  last_llm_response : Option LastResp
  tool_results_history : List HistEntry
  all_tool_calls : List ToolCall
  all_tool_results : List ToolResult
  run_steps : List RunStep
  ctx : RunContext
  llm_cursor : Nat
  exec_cursor : Nat
  pass_idx : Nat
deriving DecidableEq

/-- `AgentLoop._graceful_stop` (response part; `mark_stopped` mutates the
context, which does not outlive the run). -/
def gracefulStopResponse (st : LoopState) (reason : String) : AgentRunResponse :=
  { run_id := st.ctx.run_id, session_id := st.ctx.session_id,
    message := GracefulStop.build_message reason, is_final := true,
    tool_calls := st.all_tool_calls, tool_results := st.all_tool_results,
    steps := st.run_steps,
    next_steps := ["Try simplifying your request", "Break task into smaller steps"] }

/-- Python `l[-n:]` for `n > 0` (used with `if n else []` at the call site). -/
def pyLastN {α : Type} (n : Nat) (l : List α) : List α := l.drop (l.length - n)

/-- The 12000-character truncation of a tool-result content string. -/
def truncateResult (s : String) : String :=
  if s.data.length > 12000 then ⟨s.data.take 12000⟩ ++ "\n... [truncated]" else s

/-- Python `a or b` on strings. -/
def strOr (a b : String) : String := if a.data.isEmpty then b else a

/-- State threaded through the tool-call batch (`for tc in valid_tools`). -/
structure BatchState where
  ctx : RunContext
  all_tool_calls : List ToolCall
  all_tool_results : List ToolResult
  hist : List HistEntry
  exec_cursor : Nat
deriving DecidableEq

/-- The `for tc in valid_tools` batch of `AgentLoop.run` (loop.py 246–315):
budget check (`break`) before each call, `record_tool_call`, guardrail
check (`continue` on denial, skipped when restraints are disabled),
execution, observation, and accumulation of call/result/history entries. -/
def execBatch (S : Settings) (O : Oracles) :
    List SelToolCall → BatchState → BatchState
  | [], b => b
  | tc :: rest, b =>
    if b.ctx.tool_calls_count ≥ S.max_tool_calls then b
    else
      let ctx' := b.ctx.record_tool_call
      if S.disable_restraints = false ∧
          (ToolGuardrails.check_args tc.name tc.arguments).allowed = false then
        execBatch S O rest { b with ctx := ctx' }
      else
        let exec_result := O.exec b.exec_cursor
        let obs := ObservationBuilder.build tc.name tc.arguments exec_result
        let call : ToolCall := { id := tc.id, name := tc.name, arguments := tc.arguments }
        let tr : ToolResult :=
          { tool_call_id := tc.id, name := tc.name,
            content := if exec_result.success then exec_result.content
                       else pyShowOptStr exec_result.error,
            success := exec_result.success, duration_ms := exec_result.duration_ms }
        let rc := truncateResult
          (match obs.raw_payload with
           | some p => strOr p obs.summary
           | none => obs.summary)
        let entry : HistEntry :=
          { name := tc.name, id := tc.id, tool_call_id := tc.id,
            content := strOr rc obs.summary, raw := obs.raw_payload }
        execBatch S O rest
          { ctx := ctx',
            all_tool_calls := b.all_tool_calls ++ [call],
            all_tool_results := b.all_tool_results ++ [tr],
            hist := b.hist ++ [entry],
            exec_cursor := b.exec_cursor + 1 }

/-- Triple-backtick fence for the run_python confirmation rendering. -/
def tickFence : String := ⟨[tickChar, tickChar, tickChar]⟩

/-- One line of the confirmation prompt for a validated call. -/
def confirmLine (O : Oracles) (tc : SelToolCall) : String :=
  if tc.name = "run_python" ∧ (tc.arguments.lookup "code").isSome then
    "run_python:\n" ++ tickFence ++ "\n" ++
      pyStrVal ((tc.arguments.lookup "code").getD (.str "")) ++ "\n" ++ tickFence
  else
    tc.name ++ "(" ++ O.json_dumps tc.arguments ++ ")"

/-- The confirmation prompt message. -/
def confirmMsg (O : Oracles) (valid : List SelToolCall) : String :=
  "I want to run:\n" ++ String.intercalate "\n" (valid.map (confirmLine O)) ++
    "\n\nType **confirm** to run."

/-- The `step += 1; if step > 50: graceful stop` epilogue shared by every
pass that does not `return` or `continue`. -/
def stepAdvance (st : LoopState) : AgentRunResponse ⊕ LoopState :=
  if st.step + 1 > 50 then
    .inl (gracefulStopResponse st "Max iterations reached")
  else
    .inr { st with step := st.step + 1, pass_idx := st.pass_idx + 1 }

/-- One pass of the `while True` body of `AgentLoop.run`:
`inl` is a `return` out of the loop, `inr` the state for the next pass. -/
def loopPass (S : Settings) (O : Oracles) (user_message : String)
    (st : LoopState) : AgentRunResponse ⊕ LoopState :=
  if st.ctx.has_budget_remaining = false then
    .inl (gracefulStopResponse st st.ctx.get_budget_exceeded_reason)
  else if O.timed_out st.pass_idx then
    .inl (gracefulStopResponse st "Time limit reached")
  else
    let decision := DecideModule.decide user_message st.ctx (O.timed_out st.pass_idx)
      st.step st.last_llm_response (st.tool_results_history.length > 0)
    match decision.action with
    | .CLARIFY =>
      .inl { run_id := st.ctx.run_id, session_id := st.ctx.session_id,
             message := decision.question.getD "", is_final := false,
             tool_calls := st.all_tool_calls, tool_results := st.all_tool_results,
             steps := st.run_steps }
    | .CALL_LLM =>
      let response := O.llm st.llm_cursor
      let ctx' := st.ctx.record_tokens response.total_tokens
      let last' : LastResp := { content := response.content, tool_calls := response.tool_calls }
      let hist' := if response.tool_calls.isEmpty then st.tool_results_history else []
      stepAdvance { st with
        ctx := ctx', last_llm_response := some last',
        tool_results_history := hist', llm_cursor := st.llm_cursor + 1 }
    | .CALL_TOOL =>
      match decision.tool_calls with
      | none => stepAdvance st
      | some tool_calls_raw =>
        if tool_calls_raw.isEmpty then stepAdvance st
        else
          let sel := ToolSelector.select O.json_loads defaultRegistryNames S tool_calls_raw
          let valid := sel.1
          let errors := sel.2
          if errors ≠ [] ∧ valid = [] then
            .inr { st with
              last_llm_response := some
                { content := some ("Tool validation errors: " ++ String.intercalate "; " errors),
                  tool_calls := [] },
              pass_idx := st.pass_idx + 1 }
          else if S.require_user_confirm then
            .inl { run_id := st.ctx.run_id, session_id := st.ctx.session_id,
                   message := confirmMsg O valid, is_final := false,
                   tool_calls := st.all_tool_calls, tool_results := st.all_tool_results,
                   steps := st.run_steps, requires_confirmation := true,
                   pending_state := some { user_message := user_message, tool_calls := valid } }
          else
            let results_start := st.all_tool_results.length
            let b := execBatch S O valid
              { ctx := st.ctx, all_tool_calls := st.all_tool_calls,
                all_tool_results := st.all_tool_results,
                hist := st.tool_results_history, exec_cursor := st.exec_cursor }
            let n := valid.length
            let rs : RunStep :=
              { reasoning := match st.last_llm_response with
                             | some r => if strTruthy r.content then r.content else none
                             | none => none,
                tool_calls := if n = 0 then [] else pyLastN n b.all_tool_calls,
                tool_results := b.all_tool_results.drop results_start }
            stepAdvance { st with
              ctx := b.ctx,
              all_tool_calls := b.all_tool_calls,
              all_tool_results := b.all_tool_results,
              tool_results_history := b.hist,
              exec_cursor := b.exec_cursor,
              run_steps := st.run_steps ++ [rs],
              last_llm_response := some
                { content := st.last_llm_response.bind (·.content), tool_calls := [] } }
    | .FINISH =>
      if S.disable_restraints = false ∧
          (QualityChecker.check decision.final_answer).needs_fix then
        .inr { st with
          last_llm_response := some
            { content := some ("Quality check failed: " ++
                (QualityChecker.check decision.final_answer).reason ++ ". Please fix."),
              tool_calls := [] },
          pass_idx := st.pass_idx + 1 }
      else
        .inl { run_id := st.ctx.run_id, session_id := st.ctx.session_id,
               message := decision.final_answer.getD "", is_final := true,
               tool_calls := st.all_tool_calls, tool_results := st.all_tool_results,
               steps := st.run_steps }

/-- Fuel-indexed iteration of `loopPass`: `some (r, n)` means the loop
returned response `r` after `n` passes; `none` means the fuel ran out
first (§C2 shows 153 passes of fuel always suffice). -/
def runLoop (S : Settings) (O : Oracles) (user_message : String) :
    Nat → LoopState → Option (AgentRunResponse × Nat)
  | 0, _ => none
  | fuel + 1, st =>
    match loopPass S O user_message st with
    | .inl r => some (r, 1)
    | .inr st' => (runLoop S O user_message fuel st').map fun p => (p.1, p.2 + 1)

/-- The state at the top of the first pass: fresh counters, a fresh
`RunContext` built from the settings as `api/routes.py::run_agent` does. -/
def initLoopState (S : Settings) (session_id run_id : String) : LoopState :=
  { step := 0, last_llm_response := none, tool_results_history := [],
    all_tool_calls := [], all_tool_results := [], run_steps := [],
    ctx := { session_id := session_id, run_id := run_id,
             max_time_seconds := S.max_time_seconds,
             max_tool_calls := S.max_tool_calls,
             max_tokens_per_request := S.max_tokens_per_request,
             max_cost_per_request := S.max_cost_per_request },
    llm_cursor := 0, exec_cursor := 0, pass_idx := 0 }

/-! ## Shell session manager (`tools/shell.py`)

A process handle carries the externally-determined behaviour visible to
`_run_command_sync` / `_open_shell_sync`: the `poll()` observation at call
time, whether the stdin write succeeds, and the successive `readline`
outcomes.  The read deadline (`time.monotonic() < deadline`) is modelled
by `ticks`: the number of loop iterations for which the clock comparison
still holds.  A `readline` result of `""` is the closed-stream (EOF) case
(`if not line: break`). -/

inductive ReadResult where
  | ok (line : String)
  | exn (msg : String)

structure ProcHandle where
  poll_exited : Bool
  stdin_ok : Bool := true
  stdin_err : String := ""
  reads : Nat → ReadResult := fun _ => .ok ""
  ticks : Nat := 0

/-- The result dictionaries the shell tool functions return. -/
structure ShellResult where
  success : Bool
  stdout : String := ""
  stderr : String := ""
  error : Option String := none
  message : Option String := none
  command : Option String := none
deriving DecidableEq

abbrev Shells := List (String × ProcHandle)

/-- `_shells.get(session_id)` (the `_get_proc` helper). -/
def shellsGet (m : Shells) (sid : String) : Option ProcHandle :=
  List.lookup sid m

/-- `_shells.pop(session_id, None)` / `_set_proc(sid, None)`. -/
def shellsRemove (m : Shells) (sid : String) : Shells :=
  List.filter (fun kv => kv.1 ≠ sid) m

/-- `_shells[session_id] = proc` (`_set_proc`). -/
def shellsSet (m : Shells) (sid : String) (proc : ProcHandle) : Shells :=
  shellsRemove m sid ++ [(sid, proc)]

/-- How the `while time.monotonic() < deadline` read loop ended. -/
inductive ReadOutcome where
  | marker
  | eof
  | deadline
  | raised (msg : String)
deriving DecidableEq

/-- The read loop of `_run_command_sync`: up to `ticks` iterations, each
reading one line; stop on EOF, on a line containing the end marker (the
marker line is discarded), on the deadline, or on a raised read fault. -/
def readLoop (reads : Nat → ReadResult) : Nat → Nat → List String → List String × ReadOutcome
  | 0, _, acc => (acc.reverse, .deadline)
  | t + 1, i, acc =>
    match reads i with
    | .exn m => (acc.reverse, .raised m)
    | .ok line =>
      if line.data.isEmpty then (acc.reverse, .eof)
      else if containsSub "AGENTSHELL_END".data line.data then (acc.reverse, .marker)
      else readLoop reads t (i + 1) (line :: acc)

/-- `_run_command_sync`: returns the result dictionary and the updated
session map. -/
def run_command_sync (m : Shells) (sid : String) (command : String) :
    ShellResult × Shells :=
  match shellsGet m sid with
  | none =>
    ({ success := false, error := some "No shell open. Call open_shell first." }, m)
  | some proc =>
    if proc.poll_exited then
      ({ success := false,
         error := some "Shell process has exited. Call open_shell again." },
       shellsRemove m sid)
    else if proc.stdin_ok = false then
      ({ success := false, error := some proc.stdin_err, stderr := proc.stdin_err },
       shellsRemove m sid)
    else
      let r := readLoop proc.reads proc.ticks 0 []
      let out := String.join r.1
      match r.2 with
      | .raised msg =>
        ({ success := false, error := some msg, stdout := out, stderr := msg }, m)
      | _ =>
        ({ success := true, stdout := out, command := some command }, m)

/-- `_open_shell_sync`: `spawn` is the external `subprocess.Popen` outcome
(a fresh handle, or the raised fault's message). -/
def open_shell_sync (spawn : Except String ProcHandle) (m : Shells) (sid : String) :
    ShellResult × Shells :=
  match shellsGet m sid with
  | some proc =>
    if proc.poll_exited = false then
      ({ success := true, message := some "Shell already open for this session." }, m)
    else
      let m' := shellsRemove m sid
      match spawn with
      | .ok proc' =>
        ({ success := true,
           message := some "Shell opened. Use run_shell_command to run commands, close_shell to close it." },
         shellsSet m' sid proc')
      | .error e =>
        ({ success := false, error := some e, stderr := e }, m')
  | none =>
    match spawn with
    | .ok proc' =>
      ({ success := true,
         message := some "Shell opened. Use run_shell_command to run commands, close_shell to close it." },
       shellsSet m sid proc')
    | .error e =>
      ({ success := false, error := some e, stderr := e }, m)

/-- `_close_shell_sync`: terminate/kill is external; the entry is removed
unconditionally. -/
def close_shell_sync (m : Shells) (sid : String) : ShellResult × Shells :=
  match shellsGet m sid with
  | none => ({ success := true, message := some "No shell was open." }, m)
  | some _ =>
    ({ success := true, message := some "Shell closed." }, shellsRemove m sid)

/-! ## Deferred execution (`agent_loop/loop.py::execute_pending`) -/

/-- The per-call loop of `execute_pending`: executes every persisted call
in order (no budget check, no guardrails — the calls were already
validated when persisted).  `objId` models `str(id(tc))`, the fallback id
for a falsy persisted id; `"?"` is the fallback name. -/
def executePendingCalls (O : Oracles) (objId : Nat → String) :
    List SelToolCall → Nat → List ToolCall × List ToolResult × List HistEntry
  | [], _ => ([], [], [])
  | tc :: rest, k =>
    let name := strOr tc.name "?"
    let tc_id := strOr tc.id (objId k)
    let exec_result := O.exec k
    let obs := ObservationBuilder.build name tc.arguments exec_result
    let call : ToolCall := { id := tc_id, name := name, arguments := tc.arguments }
    let tr : ToolResult :=
      { tool_call_id := tc_id, name := name,
        content := if exec_result.success then exec_result.content
                   else pyShowOptStr exec_result.error,
        success := exec_result.success, duration_ms := exec_result.duration_ms }
    let rc := truncateResult
      (match obs.raw_payload with
       | some p => strOr p obs.summary
       | none => obs.summary)
    let entry : HistEntry :=
      { name := name, id := tc_id, tool_call_id := tc_id,
        content := strOr rc obs.summary, raw := none }
    let r := executePendingCalls O objId rest (k + 1)
    (call :: r.1, tr :: r.2.1, entry :: r.2.2)

/-- `AgentLoop.execute_pending`: run the persisted calls, then one model
call for the final synthesis; returns a final response with the executed
calls and results (steps list empty, as in the source). -/
def AgentLoop.execute_pending (O : Oracles) (objId : Nat → String)
    (session_id : String) (ctx : RunContext) (pending : PendingState) : AgentRunResponse :=
  let r := executePendingCalls O objId pending.tool_calls 0
  let response := O.llm 0
  let final_content := pyStrip (response.content.getD "")
  { run_id := ctx.run_id, session_id := session_id,
    message := strOr final_content "Done.", is_final := true,
    tool_calls := r.1, tool_results := r.2.1, steps := [] }

/-! ## API route confirmation gate (`api/routes.py::run_agent`, step 7)
and input normalization (`pipeline/input.py`) -/

/-- Word splitting of Python `str.split()` (split on whitespace runs,
dropping empty fields). -/
def pySplitWsAux (cur : List Char) : List Char → List (List Char)
  | [] => if cur.isEmpty then [] else [cur.reverse]
  | c :: rest =>
    if isPySpace c then
      if cur.isEmpty then pySplitWsAux [] rest
      else cur.reverse :: pySplitWsAux [] rest
    else pySplitWsAux (c :: cur) rest

/-- `InputNormalizer.normalize`, content part: strip, then collapse
whitespace runs to single spaces (language detection is external and does
not affect the content). -/
def normalizeContent (message : String) : String :=
  String.intercalate " "
    ((pySplitWsAux [] (pyStrip message).data).map fun l => (⟨l⟩ : String))

/-- What the route does after normalization: consume the pending state and
execute it, or start a fresh decision cycle. -/
inductive RouteAction where
  | execPendingRun (p : PendingState)
  | freshRun
deriving DecidableEq

def storeRemove (store : List (String × PendingState)) (sid : String) :
    List (String × PendingState) :=
  List.filter (fun kv => kv.1 ≠ sid) store

/-- Step 7 of `run_agent`: if the normalized content, stripped and
lower-cased, equals `"confirm"` and a pending confirmation exists for the
session, pop it (exactly once) and execute it; otherwise run a fresh
decision cycle leaving the store untouched. -/
def runAgentConfirmGate (store : List (String × PendingState))
    (session_id : String) (normalized_content : String) :
    RouteAction × List (String × PendingState) :=
  if pyLower (pyStrip normalized_content) = "confirm" then
    match store.lookup session_id with
    | some p => (.execPendingRun p, storeRemove store session_id)
    | none => (.freshRun, store)
  else
    (.freshRun, store)

/-- The post-run persistence of step 8: a response that requires
confirmation (and carries a pending state) is stored under the session. -/
def storeAfterRun (store : List (String × PendingState)) (session_id : String)
    (response : AgentRunResponse) : List (String × PendingState) :=
  if response.requires_confirmation then
    match response.pending_state with
    | some p => storeRemove store session_id ++ [(session_id, p)]
    | none => store
  else
    store

/-! ## Concrete inputs used by witnesses and counterexamples -/

/-- Pass count of a finished run. -/
def passCountOf (r : Option (AgentRunResponse × Nat)) : Option Nat := r.map (·.2)

/-- A benign environment: every tool call succeeds, the clock never
expires, JSON parsing of string arguments fails (unused). -/
def trivialOracles : Oracles :=
  { llm := fun _ => {},
    exec := fun _ => { success := true, content := "ok", duration_ms := 1 },
    timed_out := fun _ => false,
    json_loads := fun _ => .error "unused",
    json_dumps := fun _ => "" }

/-- A well-formed echo request. -/
def echoCallRaw : RawToolCall :=
  { id := some "c1", name := some "echo", arguments := .dictVal [("message", .str "hi")] }

/-- A request whose tool name is unknown and laced with enough
hallucination-marker words that the selector's error text fails the
quality check. -/
def badNameCallRaw : RawToolCall :=
  { id := some "x", name := some "I think I believe I assume maybe", arguments := .absent }

def cexC2Settings : Settings := { agent_mode_free := false }

/-- Model behaviour driving the C2 trace: one echo tool turn, then empty
responses (the unconsumed tool results keep the loop calling the model)
until the 49th model call returns the unknown-tool request. -/
def cexC2Oracles : Oracles :=
  { trivialOracles with
    llm := fun k =>
      if k = 0 then { tool_calls := [echoCallRaw] }
      else if k = 48 then { tool_calls := [badNameCallRaw] }
      else {} }

def bugC5Settings : Settings := { agent_mode_free := false, max_tool_calls := 2 }

def bugC5CallA : RawToolCall :=
  { id := some "a", name := some "echo", arguments := .dictVal [("message", .str "one")] }

def bugC5CallB : RawToolCall :=
  { id := some "b", name := some "echo", arguments := .dictVal [("message", .str "two")] }

/-- Model behaviour driving the C5 trace: one echo call on the first turn,
two echo calls on the second. -/
def bugC5Oracles : Oracles :=
  { trivialOracles with
    llm := fun k =>
      if k = 0 then { tool_calls := [echoCallRaw] }
      else { tool_calls := [bugC5CallA, bugC5CallB] } }

def scenC3Settings : Settings := { agent_mode_free := false, max_tool_calls := 1 }

def scenC3Calls : List SelToolCall :=
  [{ id := "1", name := "echo", arguments := [("message", .str "one")] },
   { id := "2", name := "echo", arguments := [("message", .str "two")] }]

def scenC3Batch0 : BatchState :=
  { ctx := { max_tool_calls := 1 }, all_tool_calls := [], all_tool_results := [],
    hist := [], exec_cursor := 0 }

/-- The `ToolCall` entry the batch records for a validated request. -/
def toolCallOfSel (tc : SelToolCall) : ToolCall :=
  { id := tc.id, name := tc.name, arguments := tc.arguments }

/-- The `ToolResult` entry the batch records for a validated request and an
execution result. -/
def toolResultOfSel (tc : SelToolCall) (r : ToolExecutionResult) : ToolResult :=
  { tool_call_id := tc.id, name := tc.name,
    content := if r.success then r.content else pyShowOptStr r.error,
    success := r.success, duration_ms := r.duration_ms }

/-- Specification helper: the results the batch records for a run of
consecutive executed calls, starting at executor-oracle cursor `cur`. -/
def batchResults (O : Oracles) (cur : Nat) : List SelToolCall → List ToolResult
  | [] => []
  | tc :: rest => toolResultOfSel tc (O.exec cur) :: batchResults O (cur + 1) rest

/-- Specification helper: the history entry the batch records for one
executed call at executor-oracle cursor `cur`. -/
def batchHistEntry (O : Oracles) (tc : SelToolCall) (cur : Nat) : HistEntry :=
  let exec_result := O.exec cur
  let obs := ObservationBuilder.build tc.name tc.arguments exec_result
  let rc := truncateResult
    (match obs.raw_payload with
     | some p => strOr p obs.summary
     | none => obs.summary)
  { name := tc.name, id := tc.id, tool_call_id := tc.id,
    content := strOr rc obs.summary, raw := obs.raw_payload }

/-- A call the guardrails deny (`rm -rf` in the serialized arguments). -/
def denyCall : SelToolCall :=
  { id := "9", name := "run_shell_command", arguments := [("command", .str "rm -rf /")] }

def denySettings : Settings := { agent_mode_free := false }

def denyBatch0 : BatchState :=
  { ctx := {}, all_tool_calls := [], all_tool_results := [], hist := [], exec_cursor := 0 }

/-- A live shell whose stream yields one line and then closes (the process
died mid-read). -/
def dyingProc : ProcHandle :=
  { poll_exited := false, stdin_ok := true,
    reads := fun n => if n = 0 then .ok "a\n" else .ok "", ticks := 5 }

/-- A shell handle whose process has already exited. -/
def exitedProc : ProcHandle := { poll_exited := true }

/-- A freshly spawned shell handle. -/
def freshProc : ProcHandle := { poll_exited := false }

/-- A persisted pending confirmation with one echo call. -/
def pendEx : PendingState :=
  { user_message := "run it",
    tool_calls := [{ id := "1", name := "echo", arguments := [("message", .str "hi")] }] }

/-! ## Termination measure for the loop (§C2)

`phaseN` ranks a loop state by how far it is from returning when the step
counter does not move: 2 for arbitrary states, 1 for a post-`continue`
state (empty `tool_calls` in the stored response, step already positive),
0 when additionally the stored content, stripped, passes the quality check
(from such a state every pass returns or calls the model). -/

def safeContent (r : LastResp) : Bool :=
  !strTruthy r.content ||
    !(QualityChecker.check (some (pyStrip (r.content.getD "")))).needs_fix

def phaseN (st : LoopState) : Nat :=
  match st.last_llm_response with
  | some r =>
    if r.tool_calls.isEmpty ∧ 1 ≤ st.step then (if safeContent r then 0 else 1) else 2
  | none => 2

/-- The decreasing measure: non-returning passes either advance `step`
(capped at 50) or keep it and strictly lower `phaseN`. -/
def muN (st : LoopState) : Nat := 3 * (50 - st.step) + phaseN st

/-! # Theorems -/

/-- **C1.** For every Decision Engine input — any user message, any step
index, any last model response, any tool-results flag, any timed-out
reading — if the RunContext's `has_budget_remaining` is false, `decide`
returns a Decision whose action is Finish. -/
theorem claim_C1 (u : String) (ctx : RunContext) (t : Bool) (k : Nat)
    (r : Option LastResp) (h : Bool)
    (hb : ctx.has_budget_remaining = false) :
    (DecideModule.decide u ctx t k r h).action = .FINISH := by
  unfold DecideModule.decide
  simp [hb]

/-- Witness for C1: a context whose tool-call counter has reached its limit
has no budget remaining, and `decide` finishes on it. -/
theorem claim_C1_witness :
    ({ tool_calls_count := 15 } : RunContext).has_budget_remaining = false ∧
      (DecideModule.decide "go" { tool_calls_count := 15 } true 3
        (some { content := some "hello", tool_calls := [] }) true).action = .FINISH :=
  ⟨by decide, claim_C1 "go" { tool_calls_count := 15 } true 3
    (some { content := some "hello", tool_calls := [] }) true (by decide)⟩

/-- A request accepted by the selector names a registered tool. -/
theorem classify_inl_has_tool (pj : String → Except String ArgDict)
    (reg : List String) (S : Settings) (tc : RawToolCall) (v : SelToolCall)
    (h : ToolSelector.classify pj reg S tc = .inl v) :
    ToolRegistry.has_tool reg (some v.name) = true := by
  simp only [ToolSelector.classify] at h
  cases hn : tc.name with
  | none =>
    rw [hn] at h
    simp [ToolRegistry.has_tool] at h
  | some n =>
    rw [hn] at h
    by_cases hreg : ToolRegistry.has_tool reg (some n) = false
    · rw [if_pos hreg] at h
      simp at h
    · rw [if_neg hreg] at h
      have hr : ToolRegistry.has_tool reg (some n) = true := by
        revert hreg
        cases ToolRegistry.has_tool reg (some n) <;> simp
      split at h
      · simp at h
      · split at h
        next s _ =>
          cases hpj : pj s with
          | error e => rw [hpj] at h; simp at h
          | ok d =>
            rw [hpj] at h
            obtain rfl := Sum.inl.inj h
            simpa using hr
        next d _ =>
          obtain rfl := Sum.inl.inj h
          simpa using hr
        next =>
          obtain rfl := Sum.inl.inj h
          simpa using hr

/-- **C6.** The Selector partitions its input: each raw request is classified
into exactly one of the valid set or the error list (so the two sides cover
the input with no overlap and their sizes sum to the input size), and every
valid request's name passes `has_tool`. -/
theorem claim_C6 (pj : String → Except String ArgDict) (reg : List String)
    (S : Settings) (tcs : List RawToolCall) :
    (ToolSelector.select pj reg S tcs).1.length +
        (ToolSelector.select pj reg S tcs).2.length = tcs.length
    ∧ ((ToolSelector.select pj reg S tcs).1.all fun v =>
        ToolRegistry.has_tool reg (some v.name)) = true
    ∧ (ToolSelector.select pj reg S tcs).1 = tcs.filterMap (fun tc =>
        match ToolSelector.classify pj reg S tc with
        | .inl v => some v
        | .inr _ => none)
    ∧ (ToolSelector.select pj reg S tcs).2 = tcs.filterMap (fun tc =>
        match ToolSelector.classify pj reg S tc with
        | .inl _ => none
        | .inr e => some e) := by
  induction tcs with
  | nil => simp [ToolSelector.select]
  | cons tc rest ih =>
    obtain ⟨ih1, ih2, ih3, ih4⟩ := ih
    cases hcl : ToolSelector.classify pj reg S tc with
    | inl v =>
      refine ⟨?_, ?_, ?_, ?_⟩
      · simp [ToolSelector.select, hcl]; omega
      · simp only [ToolSelector.select, hcl, List.all_cons, Bool.and_eq_true]
        exact ⟨classify_inl_has_tool pj reg S tc v hcl, ih2⟩
      · simp [ToolSelector.select, hcl, ih3]
      · simp [ToolSelector.select, hcl, ih4]
    | inr e =>
      refine ⟨?_, ?_, ?_, ?_⟩
      · simp [ToolSelector.select, hcl]; omega
      · simp only [ToolSelector.select, hcl]; exact ih2
      · simp [ToolSelector.select, hcl, ih3]
      · simp [ToolSelector.select, hcl, ih4]

/-- **C7.** For every registry, handler behaviour, tool name and arguments,
the Executor returns a typed result (never a language-level fault): the
measured duration is reported on both the success and the failure path, a
fault becomes `success := false` with the fault's message in `error`, and a
returned value becomes `success := true` with the value as content. -/
theorem claim_C7 (reg : List String) (handler : String → ArgDict → Except String String)
    (name : String) (args : ArgDict) (t0 t1 : Nat) :
    (ToolExecutor.execute reg handler name args t0 t1).duration_ms = t1 - t0
    ∧ ((ToolExecutor.execute reg handler name args t0 t1).success =
        match ToolRegistry.execute reg handler name args with
        | .ok _ => true
        | .error _ => false)
    ∧ ((ToolExecutor.execute reg handler name args t0 t1).error =
        match ToolRegistry.execute reg handler name args with
        | .ok _ => none
        | .error e => some e)
    ∧ ((ToolExecutor.execute reg handler name args t0 t1).content =
        match ToolRegistry.execute reg handler name args with
        | .ok c => c
        | .error _ => "") := by
  unfold ToolExecutor.execute
  cases h : ToolRegistry.execute reg handler name args <;> simp [h]

/-- **C9 as frozen is false.** With budget and time remaining and a last
response carrying non-empty text (`"All done"`, no trailing `?`) and no
tool calls, the Decision Engine at step index 0 returns CallModel — neither
the Finish(text) the claim requires for non-question text, nor Clarify. -/
theorem claim_C9_counterexample :
    (DecideModule.decide "hi" {} false 0
        (some { content := some "All done", tool_calls := [] }) false).action = .CALL_LLM
    ∧ ({} : RunContext).has_budget_remaining = true
    ∧ (DecideModule.decide "hi" {} false 0
        (some { content := some "All done", tool_calls := [] }) false).action ≠ .FINISH
    ∧ (DecideModule.decide "hi" {} false 0
        (some { content := some "All done", tool_calls := [] }) false).action ≠ .CLARIFY := by
  refine ⟨by decide, by decide, by decide, by decide⟩

/-- **C9 (amended).** When budget and time remain, the step index is
positive, and the last model response carries non-empty text and no tool
calls, `decide` returns Clarify with the stripped text exactly when the
stripped text ends with `?` and contains a `?` within its first 100
characters, and otherwise returns Finish with the stripped text. -/
theorem claim_C9 (u : String) (ctx : RunContext) (k : Nat) (content : String)
    (htr : Bool) (hb : ctx.has_budget_remaining = true) (hk : k ≠ 0)
    (hc : content.data ≠ []) :
    (looksLikeQuestion (pyStrip content) = true →
      DecideModule.decide u ctx false k
          (some { content := some content, tool_calls := [] }) htr =
        { action := .CLARIFY, question := some (pyStrip content) })
    ∧ (looksLikeQuestion (pyStrip content) = false →
      DecideModule.decide u ctx false k
          (some { content := some content, tool_calls := [] }) htr =
        { action := .FINISH, final_answer := some (pyStrip content) }) := by
  constructor <;> intro hq <;>
    simp [DecideModule.decide, hb, hk, strTruthy, hc, hq]

/-- Witness for C9: at step 1 with ample budget, `"Could you clarify?"`
triggers Clarify and `"All done."` triggers Finish. -/
theorem claim_C9_witness :
    ((({} : RunContext).has_budget_remaining = true) ∧ (1 : Nat) ≠ 0 ∧
      "Could you clarify?".data ≠ [] ∧
      looksLikeQuestion (pyStrip "Could you clarify?") = true ∧
      DecideModule.decide "u" {} false 1
          (some { content := some "Could you clarify?", tool_calls := [] }) false =
        { action := .CLARIFY, question := some (pyStrip "Could you clarify?") })
    ∧ (looksLikeQuestion (pyStrip "All done.") = false ∧
      DecideModule.decide "u" {} false 1
          (some { content := some "All done.", tool_calls := [] }) false =
        { action := .FINISH, final_answer := some (pyStrip "All done.") }) :=
  ⟨⟨by decide, by decide, by decide, by decide,
    (claim_C9 "u" {} 1 "Could you clarify?" false (by decide) (by decide) (by decide)).1
      (by decide)⟩,
   ⟨by decide,
    (claim_C9 "u" {} 1 "All done." false (by decide) (by decide) (by decide)).2
      (by decide)⟩⟩

/-- **C10.** A tool call in a batch that the guardrail check denies (with
restraints enabled and budget still available) consumes exactly one unit
of the tool-call budget — the counter was already incremented before the
check — and contributes no ToolCall entry, no ToolResult entry, no
tool-results-history entry, and no executor invocation: the batch continues
as if from the incremented counter alone. -/
theorem claim_C10 (S : Settings) (O : Oracles) (tc : SelToolCall)
    (rest : List SelToolCall) (b : BatchState)
    (hbud : b.ctx.tool_calls_count < S.max_tool_calls)
    (hres : S.disable_restraints = false)
    (hden : (ToolGuardrails.check_args tc.name tc.arguments).allowed = false) :
    execBatch S O (tc :: rest) b =
      execBatch S O rest { b with ctx := b.ctx.record_tool_call } := by
  unfold execBatch
  rw [if_neg (by omega)]
  rw [if_pos ⟨hres, hden⟩]
  cases rest <;> rfl

/-- Witness for C10: a `run_shell_command` call whose arguments serialize
with `rm -rf` is denied; with a fresh counter (0 of 15) it burns one budget
unit and adds nothing to the batch accumulators. -/
theorem claim_C10_witness :
    denyBatch0.ctx.tool_calls_count < denySettings.max_tool_calls
    ∧ denySettings.disable_restraints = false
    ∧ (ToolGuardrails.check_args denyCall.name denyCall.arguments).allowed = false
    ∧ execBatch denySettings trivialOracles [denyCall] denyBatch0 =
        execBatch denySettings trivialOracles []
          { denyBatch0 with ctx := denyBatch0.ctx.record_tool_call } :=
  ⟨by decide, by decide, by decide,
   claim_C10 denySettings trivialOracles denyCall [] denyBatch0
     (by decide) (by decide) (by decide)⟩

/-- The batch executes exactly the first
`min valid.length (max_tool_calls - count)` requests, in order: the budget
is honored mid-batch (no further executor calls once the count reaches the
settings' maximum) and everything already executed is kept.  Stated for
batches whose calls pass the guardrails (or with restraints disabled), so
that only the budget can cut the batch short. -/
theorem execBatch_budget (S : Settings) (O : Oracles) (valid : List SelToolCall)
    (b : BatchState)
    (hguard : ∀ tc ∈ valid, S.disable_restraints = true ∨
      (ToolGuardrails.check_args tc.name tc.arguments).allowed = true) :
    (execBatch S O valid b).all_tool_calls = b.all_tool_calls ++
        ((valid.take (min valid.length (S.max_tool_calls - b.ctx.tool_calls_count))).map
          toolCallOfSel)
    ∧ (execBatch S O valid b).all_tool_results = b.all_tool_results ++
        batchResults O b.exec_cursor
          (valid.take (min valid.length (S.max_tool_calls - b.ctx.tool_calls_count)))
    ∧ (execBatch S O valid b).ctx.tool_calls_count = b.ctx.tool_calls_count +
        min valid.length (S.max_tool_calls - b.ctx.tool_calls_count)
    ∧ (execBatch S O valid b).exec_cursor = b.exec_cursor +
        min valid.length (S.max_tool_calls - b.ctx.tool_calls_count) := by
  induction valid generalizing b with
  | nil => simp [execBatch, batchResults]
  | cons tc rest ih =>
    by_cases hge : b.ctx.tool_calls_count ≥ S.max_tool_calls
    · have hk : min (tc :: rest).length (S.max_tool_calls - b.ctx.tool_calls_count) = 0 := by
        have : S.max_tool_calls - b.ctx.tool_calls_count = 0 := by omega
        simp [this]
      rw [hk]
      simp [execBatch, if_pos hge, batchResults]
    · have hg := hguard tc (by simp)
      have hcond : ¬(S.disable_restraints = false ∧
          (ToolGuardrails.check_args tc.name tc.arguments).allowed = false) := by
        rcases hg with hg | hg <;> simp [hg]
      have hlt : b.ctx.tool_calls_count < S.max_tool_calls := by omega
      obtain ⟨e, hstep⟩ : ∃ e : HistEntry, execBatch S O (tc :: rest) b =
          execBatch S O rest
            { ctx := b.ctx.record_tool_call,
              all_tool_calls := b.all_tool_calls ++ [toolCallOfSel tc],
              all_tool_results := b.all_tool_results ++ [toolResultOfSel tc (O.exec b.exec_cursor)],
              hist := b.hist ++ [e],
              exec_cursor := b.exec_cursor + 1 } := by
        refine ⟨batchHistEntry O tc b.exec_cursor, ?_⟩
        unfold execBatch
        rw [if_neg (by omega), if_neg hcond]
        cases rest <;> rfl
      obtain ⟨ih1, ih2, ih3, ih4⟩ := ih _ (fun t ht => hguard t (by simp [ht]))
      have hmin : min (tc :: rest).length (S.max_tool_calls - b.ctx.tool_calls_count) =
          min rest.length (S.max_tool_calls - (b.ctx.tool_calls_count + 1)) + 1 := by
        simp only [List.length_cons]
        omega
      refine ⟨?_, ?_, ?_, ?_⟩
      · rw [hstep, ih1, hmin]
        simp [RunContext.record_tool_call, List.take_succ_cons]
      · rw [hstep, ih2, hmin]
        simp [RunContext.record_tool_call, List.take_succ_cons, batchResults]
      · rw [hstep, ih3, hmin]
        simp only [RunContext.record_tool_call]
        omega
      · rw [hstep, ih4, hmin]
        simp only [RunContext.record_tool_call]
        omega

/-- **C3.** Valid tool-call batches honor the tool-call budget mid-batch:
exactly the first `min (batch length) (remaining budget)` requests execute,
in order, and already-executed calls and results are kept (first
conjunct, for batches whose calls pass the guardrails).  In the concrete
scenario `max_tool_calls = 1` with two requested echo calls, exactly the
first executes (one call, one result, counter 1), and the next Decision
Engine call — whatever the step, response and flags — returns Finish with
the budget-exhausted reason. -/
theorem claim_C3 :
    (∀ (S : Settings) (O : Oracles) (valid : List SelToolCall) (b : BatchState),
      (∀ tc ∈ valid, S.disable_restraints = true ∨
        (ToolGuardrails.check_args tc.name tc.arguments).allowed = true) →
      (execBatch S O valid b).all_tool_calls = b.all_tool_calls ++
          ((valid.take (min valid.length (S.max_tool_calls - b.ctx.tool_calls_count))).map
            toolCallOfSel)
      ∧ (execBatch S O valid b).all_tool_results = b.all_tool_results ++
          batchResults O b.exec_cursor
            (valid.take (min valid.length (S.max_tool_calls - b.ctx.tool_calls_count)))
      ∧ (execBatch S O valid b).ctx.tool_calls_count = b.ctx.tool_calls_count +
          min valid.length (S.max_tool_calls - b.ctx.tool_calls_count)
      ∧ (execBatch S O valid b).exec_cursor = b.exec_cursor +
          min valid.length (S.max_tool_calls - b.ctx.tool_calls_count))
    ∧ (execBatch scenC3Settings trivialOracles scenC3Calls scenC3Batch0).all_tool_calls =
        [toolCallOfSel { id := "1", name := "echo", arguments := [("message", .str "one")] }]
    ∧ (execBatch scenC3Settings trivialOracles scenC3Calls scenC3Batch0).all_tool_results.length = 1
    ∧ (execBatch scenC3Settings trivialOracles scenC3Calls scenC3Batch0).ctx.tool_calls_count = 1
    ∧ (∀ (u : String) (k : Nat) (r : Option LastResp) (h : Bool),
        DecideModule.decide u (execBatch scenC3Settings trivialOracles scenC3Calls scenC3Batch0).ctx
            false k r h =
          { action := .FINISH,
            final_answer := some "Budget exhausted. Stopping gracefully." }) := by
  refine ⟨execBatch_budget, by decide, by decide, by decide, ?_⟩
  intro u k r h
  have hb : (execBatch scenC3Settings trivialOracles scenC3Calls scenC3Batch0).ctx.has_budget_remaining
      = false := by decide
  unfold DecideModule.decide
  simp [hb]

/-- Witness for C3: the general conjunct applied to the concrete scenario
batch (whose echo arguments pass the guardrails). -/
theorem claim_C3_witness :
    (∀ tc ∈ scenC3Calls, scenC3Settings.disable_restraints = true ∨
      (ToolGuardrails.check_args tc.name tc.arguments).allowed = true)
    ∧ (execBatch scenC3Settings trivialOracles scenC3Calls scenC3Batch0).all_tool_calls =
        scenC3Batch0.all_tool_calls ++
          ((scenC3Calls.take (min scenC3Calls.length
            (scenC3Settings.max_tool_calls - scenC3Batch0.ctx.tool_calls_count))).map
            toolCallOfSel) :=
  ⟨by decide,
   (claim_C3.1 scenC3Settings trivialOracles scenC3Calls scenC3Batch0 (by decide)).1⟩

/-- **C4 as frozen is false.** A live shell whose output stream closes
mid-read (one line, then EOF): `run_command_sync` returns `success = true`
with no error (only the partial output), and the session entry is *not*
removed — the read loop ends in the EOF outcome yet is treated like the
marker/deadline outcomes. -/
theorem claim_C4_counterexample :
    (readLoop dyingProc.reads dyingProc.ticks 0 []).2 = .eof
    ∧ (run_command_sync [("s", dyingProc)] "s" "ls").1.success = true
    ∧ (run_command_sync [("s", dyingProc)] "s" "ls").1.stdout = "a\n"
    ∧ (run_command_sync [("s", dyingProc)] "s" "ls").1.error = none
    ∧ (run_command_sync [("s", dyingProc)] "s" "ls").2 = [("s", dyingProc)] :=
  ⟨rfl, rfl, rfl, rfl, rfl⟩

/-- **C4 (amended).** When the stream closes during a `run_command_sync`
read, the call returns `success = true` with the partial output and no
error, and the session entry stays; the death is detected on the *next*
`run_command_sync` (whose `poll()` sees the exited process), which returns
`success = false` with an error and removes the entry; and `open_shell_sync`
over a dead or absent entry installs the freshly spawned process — so the
key becomes openable again without manual cleanup, one call later than the
frozen claim states. -/
theorem claim_C4 :
    (∀ (m : Shells) (sid cmd : String) (proc : ProcHandle),
      shellsGet m sid = some proc → proc.poll_exited = false → proc.stdin_ok = true →
      (readLoop proc.reads proc.ticks 0 []).2 = .eof →
      (run_command_sync m sid cmd).1.success = true
      ∧ (run_command_sync m sid cmd).1.stdout =
          String.join (readLoop proc.reads proc.ticks 0 []).1
      ∧ (run_command_sync m sid cmd).1.error = none
      ∧ (run_command_sync m sid cmd).2 = m)
    ∧ (∀ (m : Shells) (sid cmd : String) (proc : ProcHandle),
      shellsGet m sid = some proc → proc.poll_exited = true →
      (run_command_sync m sid cmd).1.success = false
      ∧ (run_command_sync m sid cmd).1.error =
          some "Shell process has exited. Call open_shell again."
      ∧ (run_command_sync m sid cmd).2 = shellsRemove m sid)
    ∧ (∀ (m : Shells) (sid : String) (proc proc' : ProcHandle),
      shellsGet m sid = some proc → proc.poll_exited = true →
      open_shell_sync (.ok proc') m sid =
        ({ success := true,
           message := some "Shell opened. Use run_shell_command to run commands, close_shell to close it." },
         shellsSet (shellsRemove m sid) sid proc'))
    ∧ (∀ (m : Shells) (sid : String) (proc' : ProcHandle),
      shellsGet m sid = none →
      open_shell_sync (.ok proc') m sid =
        ({ success := true,
           message := some "Shell opened. Use run_shell_command to run commands, close_shell to close it." },
         shellsSet m sid proc')) := by
  refine ⟨?_, ?_, ?_, ?_⟩
  · intro m sid cmd proc hget hpoll hok heof
    unfold run_command_sync
    rw [hget]
    simp [hpoll, hok, heof]
  · intro m sid cmd proc hget hpoll
    unfold run_command_sync
    rw [hget]
    simp [hpoll]
  · intro m sid proc proc' hget hpoll
    unfold open_shell_sync
    rw [hget]
    simp [hpoll]
  · intro m sid proc' hget
    unfold open_shell_sync
    rw [hget]

/-- Witness for C4: the dying-stream shell for the first conjunct, an
exited shell for the second, and re-opening over the exited entry for the
third and an empty map for the fourth. -/
theorem claim_C4_witness :
    ((run_command_sync [("s", dyingProc)] "s" "ls").1.success = true
      ∧ (run_command_sync [("s", dyingProc)] "s" "ls").1.stdout =
          String.join (readLoop dyingProc.reads dyingProc.ticks 0 []).1
      ∧ (run_command_sync [("s", dyingProc)] "s" "ls").1.error = none
      ∧ (run_command_sync [("s", dyingProc)] "s" "ls").2 = [("s", dyingProc)])
    ∧ ((run_command_sync [("s", exitedProc)] "s" "ls").1.success = false
      ∧ (run_command_sync [("s", exitedProc)] "s" "ls").1.error =
          some "Shell process has exited. Call open_shell again."
      ∧ (run_command_sync [("s", exitedProc)] "s" "ls").2 =
          shellsRemove [("s", exitedProc)] "s")
    ∧ open_shell_sync (.ok freshProc) [("s", exitedProc)] "s" =
        ({ success := true,
           message := some "Shell opened. Use run_shell_command to run commands, close_shell to close it." },
         shellsSet (shellsRemove [("s", exitedProc)] "s") "s" freshProc)
    ∧ open_shell_sync (.ok freshProc) [] "s" =
        ({ success := true,
           message := some "Shell opened. Use run_shell_command to run commands, close_shell to close it." },
         shellsSet [] "s" freshProc) :=
  ⟨claim_C4.1 [("s", dyingProc)] "s" "ls" dyingProc rfl rfl rfl rfl,
   claim_C4.2.1 [("s", exitedProc)] "s" "ls" exitedProc rfl rfl,
   claim_C4.2.2.1 [("s", exitedProc)] "s" exitedProc freshProc rfl rfl,
   claim_C4.2.2.2 [] "s" freshProc rfl⟩

/-- Entries of the persisted tool-call list with truthy ids and names are
executed verbatim, in order. -/
theorem executePendingCalls_exact (O : Oracles) (objId : Nat → String)
    (l : List SelToolCall) (k : Nat)
    (h : ∀ tc ∈ l, tc.name.data ≠ [] ∧ tc.id.data ≠ []) :
    (executePendingCalls O objId l k).1 = l.map toolCallOfSel := by
  induction l generalizing k with
  | nil => simp [executePendingCalls]
  | cons tc rest ih =>
    obtain ⟨hn, hi⟩ := h tc (by simp)
    unfold executePendingCalls
    simp only [List.map_cons]
    rw [ih _ (fun t ht => h t (by simp [ht]))]
    simp [strOr, toolCallOfSel, hn, hi]

/-- **C8 as frozen is false.** The message `"Confirm"` does not exactly
match the confirmation token `"confirm"`, yet it triggers execution and
consumes the pending state: matching is whitespace-normalized and
case-insensitive, not exact. -/
theorem claim_C8_counterexample :
    normalizeContent "Confirm" ≠ "confirm"
    ∧ runAgentConfirmGate [("s", pendEx)] "s" (normalizeContent "Confirm") =
        (.execPendingRun pendEx, []) :=
  ⟨by decide, by decide⟩

/-- **C8 (amended).** A later request whose message content, after
whitespace normalization, stripping and ASCII lower-casing, equals
`"confirm"` pops the session's pending state exactly once (the store entry
is removed) and triggers execution of exactly the persisted tool-call
list in order (verbatim when ids and names are truthy); any message that
does not normalize to the token — and a token with no pending entry —
starts a fresh decision cycle and leaves the store untouched. -/
theorem claim_C8 :
    (∀ (store : List (String × PendingState)) (sid content : String),
      ¬pyLower (pyStrip content) = "confirm" →
      runAgentConfirmGate store sid content = (.freshRun, store))
    ∧ (∀ (store : List (String × PendingState)) (sid content : String) (p : PendingState),
      pyLower (pyStrip content) = "confirm" → store.lookup sid = some p →
      runAgentConfirmGate store sid content = (.execPendingRun p, storeRemove store sid))
    ∧ (∀ (store : List (String × PendingState)) (sid content : String),
      pyLower (pyStrip content) = "confirm" → store.lookup sid = none →
      runAgentConfirmGate store sid content = (.freshRun, store))
    ∧ (∀ (O : Oracles) (objId : Nat → String) (sid : String) (ctx : RunContext)
        (p : PendingState),
      (∀ tc ∈ p.tool_calls, tc.name.data ≠ [] ∧ tc.id.data ≠ []) →
      (AgentLoop.execute_pending O objId sid ctx p).tool_calls =
        p.tool_calls.map toolCallOfSel) := by
  refine ⟨?_, ?_, ?_, ?_⟩
  · intro store sid content hne
    unfold runAgentConfirmGate
    rw [if_neg hne]
  · intro store sid content p heq hlook
    unfold runAgentConfirmGate
    rw [if_pos heq, hlook]
  · intro store sid content heq hlook
    unfold runAgentConfirmGate
    rw [if_pos heq, hlook]
  · intro O objId sid ctx p h
    unfold AgentLoop.execute_pending
    exact executePendingCalls_exact O objId p.tool_calls 0 h

/-- Witness for C8: `"nope"` leaves the store untouched; `" CONFIRM "`
consumes the single pending entry; a token with an empty store starts a
fresh cycle; and executing `pendEx` issues exactly its one echo call. -/
theorem claim_C8_witness :
    runAgentConfirmGate [("s", pendEx)] "s" "nope" = (.freshRun, [("s", pendEx)])
    ∧ runAgentConfirmGate [("s", pendEx)] "s" " CONFIRM " =
        (.execPendingRun pendEx, storeRemove [("s", pendEx)] "s")
    ∧ runAgentConfirmGate [] "s" "confirm" = (.freshRun, [])
    ∧ (AgentLoop.execute_pending trivialOracles (fun _ => "0") "s" {} pendEx).tool_calls =
        pendEx.tool_calls.map toolCallOfSel :=
  ⟨claim_C8.1 [("s", pendEx)] "s" "nope" (by decide),
   claim_C8.2.1 [("s", pendEx)] "s" " CONFIRM " pendEx (by decide) (by decide),
   claim_C8.2.2.1 [] "s" "confirm" (by decide) (by decide),
   claim_C8.2.2.2 trivialOracles (fun _ => "0") "s" {} pendEx (by decide)⟩

/-- **C5 is violated by the code** at a concrete two-batch trace: with
`max_tool_calls = 2`, a first turn executing one echo call and a second
turn requesting two echo calls of which only one fits the budget, the
second recorded RunStep carries 2 tool calls (`all_tool_calls[-n:]` with
`n = len(valid_tools)` reaches back into the previous step) but only 1
tool result (`all_tool_results[results_start:]`). -/
theorem claim_C5_failing_trace :
    (runLoop bugC5Settings bugC5Oracles "m" 60 (initLoopState bugC5Settings "s" "r")).map
        (fun p => p.1.steps.map fun s => (s.tool_calls.length, s.tool_results.length))
      = some [(1, 1), (2, 1)]
    ∧ (2 : Nat) ≠ 1 :=
  ⟨by decide, by decide⟩

/-- `phaseN` never exceeds 2. -/
theorem phaseN_le (st : LoopState) : phaseN st ≤ 2 := by
  cases h : st.last_llm_response with
  | none => simp [phaseN, h]
  | some r =>
    simp only [phaseN, h]
    split_ifs <;> omega

/-- When the quality check demands a fix, its reason is one of the three
fixed strings of `quality.py`. -/
theorem check_needs_fix_reason (c : Option String)
    (h : (QualityChecker.check c).needs_fix = true) :
    (QualityChecker.check c).reason = "Empty response"
    ∨ (QualityChecker.check c).reason = "Content may contain disallowed information"
    ∨ (QualityChecker.check c).reason = "Response contains potential hallucination markers" := by
  by_cases h1 : strTruthy c = false
  · simp [QualityChecker.check, h1]
  · by_cases h2 : has_disallowed_content (c.getD "") = true
    · simp [QualityChecker.check, h1, h2]
    · by_cases h3 : has_hallucination_markers (c.getD "") = true
      · simp [QualityChecker.check, h1, h2, h3]
      · by_cases h4 : has_valid_markdown (c.getD "") = false
        · simp [QualityChecker.check, h1, h2, h3, h4] at h
        · simp [QualityChecker.check, h1, h2, h3, h4] at h

/-- The synthetic quality-retry text built from any of the three fix
reasons itself passes the quality check (stripped), so a retried Finish
succeeds on the next pass. -/
theorem synth_safe (reason : String)
    (h : reason = "Empty response"
      ∨ reason = "Content may contain disallowed information"
      ∨ reason = "Response contains potential hallucination markers") :
    safeContent { content := some ("Quality check failed: " ++ reason ++ ". Please fix."),
                  tool_calls := [] } = true := by
  rcases h with rfl | rfl | rfl <;> decide

/-- A non-returning `stepAdvance` increments the step within the cap. -/
theorem stepAdvance_inr (st₁ st' : LoopState) (h : stepAdvance st₁ = .inr st') :
    st' = { st₁ with step := st₁.step + 1, pass_idx := st₁.pass_idx + 1 }
    ∧ st₁.step + 1 ≤ 50 := by
  unfold stepAdvance at h
  split at h
  · simp at h
  · exact ⟨(Sum.inr.inj h).symm, by omega⟩

/-- Every pass that does not return either advances the step counter
(within the 50 cap) or keeps it and strictly lowers the phase: the two
`continue` paths (selector errors, quality retry) always move toward a
state from which the loop returns. -/
theorem loopPass_measure (S : Settings) (O : Oracles) (u : String) (st st' : LoopState)
    (h : loopPass S O u st = .inr st') :
    (st'.step = st.step + 1 ∧ st.step + 1 ≤ 50)
    ∨ (st'.step = st.step ∧ phaseN st' < phaseN st) := by
  by_cases hb : st.ctx.has_budget_remaining = false
  · simp only [loopPass, if_pos hb] at h
    exact Sum.noConfusion h
  · by_cases ht : O.timed_out st.pass_idx = true
    · simp only [loopPass, if_neg hb, if_pos ht] at h
      exact Sum.noConfusion h
    · simp only [loopPass, if_neg hb, if_neg ht] at h
      by_cases h0 : st.step = 0
      · have hd : DecideModule.decide u st.ctx (O.timed_out st.pass_idx) st.step
            st.last_llm_response (st.tool_results_history.length > 0) =
            { action := .CALL_LLM } := by
          simp only [DecideModule.decide, if_neg hb, if_neg ht, if_pos h0]
        rw [hd] at h
        dsimp only at h
        obtain ⟨hst', hle⟩ := stepAdvance_inr _ _ h
        subst hst'
        exact Or.inl ⟨by simp, by simpa using hle⟩
      · cases hlast : st.last_llm_response with
        | none =>
          by_cases hres : st.tool_results_history.length > 0
          · have hd : DecideModule.decide u st.ctx (O.timed_out st.pass_idx) st.step
                st.last_llm_response (st.tool_results_history.length > 0) =
                { action := .CALL_LLM } := by
              simp only [DecideModule.decide, if_neg hb, if_neg ht, if_neg h0, hlast]
              simp [hres]
            rw [hd] at h
            dsimp only at h
            obtain ⟨hst', hle⟩ := stepAdvance_inr _ _ h
            subst hst'
            exact Or.inl ⟨by simp, by simpa using hle⟩
          · have hd : DecideModule.decide u st.ctx (O.timed_out st.pass_idx) st.step
                st.last_llm_response (st.tool_results_history.length > 0) =
                { action := .FINISH, final_answer := some "Task completed." } := by
              simp only [DecideModule.decide, if_neg hb, if_neg ht, if_neg h0, hlast]
              simp [hres]
            rw [hd] at h
            dsimp only at h
            have hnf : (QualityChecker.check (some "Task completed.")).needs_fix = false := by
              decide
            rw [if_neg (by simp [hnf])] at h
            exact Sum.noConfusion h
        | some r =>
          by_cases hne : r.tool_calls.isEmpty = true
          · by_cases hct : strTruthy r.content = true
            · by_cases hq : looksLikeQuestion (pyStrip (r.content.getD "")) = true
              · have hd : DecideModule.decide u st.ctx (O.timed_out st.pass_idx) st.step
                    st.last_llm_response (st.tool_results_history.length > 0) =
                    { action := .CLARIFY,
                      question := some (pyStrip (r.content.getD "")) } := by
                  simp only [DecideModule.decide, if_neg hb, if_neg ht, if_neg h0, hlast]
                  simp [hne, hct, hq]
                rw [hd] at h
                dsimp only at h
                exact Sum.noConfusion h
              · have hd : DecideModule.decide u st.ctx (O.timed_out st.pass_idx) st.step
                    st.last_llm_response (st.tool_results_history.length > 0) =
                    { action := .FINISH,
                      final_answer := some (pyStrip (r.content.getD "")) } := by
                  simp only [DecideModule.decide, if_neg hb, if_neg ht, if_neg h0, hlast]
                  simp [hne, hct, hq]
                rw [hd] at h
                dsimp only at h
                by_cases hfix : S.disable_restraints = false ∧
                    (QualityChecker.check
                      (some (pyStrip (r.content.getD "")))).needs_fix = true
                · rw [if_pos hfix] at h
                  obtain rfl := Sum.inr.inj h
                  refine Or.inr ⟨rfl, ?_⟩
                  have hstep1 : (1 : Nat) ≤ st.step := by omega
                  have hsafe : safeContent
                      { content := some ("Quality check failed: " ++
                          (QualityChecker.check
                            (some (pyStrip (r.content.getD "")))).reason ++ ". Please fix."),
                        tool_calls := [] } = true :=
                    synth_safe _ (check_needs_fix_reason _ hfix.2)
                  have hbad : safeContent r = false := by
                    unfold safeContent
                    rw [hct, hfix.2]
                    rfl
                  have hph1 : phaseN st = 1 := by
                    simp only [phaseN, hlast]
                    simp [hne, hstep1, hbad]
                  rw [hph1]
                  simp only [phaseN]
                  simp [hstep1, hsafe]
                · rw [if_neg hfix] at h
                  exact Sum.noConfusion h
            · by_cases hres : st.tool_results_history.length > 0
              · have hd : DecideModule.decide u st.ctx (O.timed_out st.pass_idx) st.step
                    st.last_llm_response (st.tool_results_history.length > 0) =
                    { action := .CALL_LLM } := by
                  simp only [DecideModule.decide, if_neg hb, if_neg ht, if_neg h0, hlast]
                  simp [hne, hct, hres]
                rw [hd] at h
                dsimp only at h
                obtain ⟨hst', hle⟩ := stepAdvance_inr _ _ h
                subst hst'
                exact Or.inl ⟨by simp, by simpa using hle⟩
              · have hd : DecideModule.decide u st.ctx (O.timed_out st.pass_idx) st.step
                    st.last_llm_response (st.tool_results_history.length > 0) =
                    { action := .FINISH, final_answer := some "Task completed." } := by
                  simp only [DecideModule.decide, if_neg hb, if_neg ht, if_neg h0, hlast]
                  simp [hne, hct, hres]
                rw [hd] at h
                dsimp only at h
                have hnf : (QualityChecker.check (some "Task completed.")).needs_fix = false := by
                  decide
                rw [if_neg (by simp [hnf])] at h
                exact Sum.noConfusion h
          · have hd : DecideModule.decide u st.ctx (O.timed_out st.pass_idx) st.step
                st.last_llm_response (st.tool_results_history.length > 0) =
                { action := .CALL_TOOL, tool_calls := some r.tool_calls } := by
              simp only [DecideModule.decide, if_neg hb, if_neg ht, if_neg h0, hlast]
              simp [hne]
            rw [hd] at h
            dsimp only at h
            rw [if_neg hne] at h
            by_cases hsel : (ToolSelector.select O.json_loads defaultRegistryNames S
                r.tool_calls).2 ≠ [] ∧
                (ToolSelector.select O.json_loads defaultRegistryNames S r.tool_calls).1 = []
            · rw [if_pos hsel] at h
              obtain rfl := Sum.inr.inj h
              refine Or.inr ⟨rfl, ?_⟩
              have hstep1 : (1 : Nat) ≤ st.step := by omega
              have hph2 : phaseN st = 2 := by
                simp only [phaseN, hlast]
                simp [hne]
              rw [hph2]
              simp only [phaseN]
              simp only [List.isEmpty_nil, true_and]
              split_ifs <;> omega
            · rw [if_neg hsel] at h
              by_cases hcf : S.require_user_confirm = true
              · rw [if_pos hcf] at h
                exact Sum.noConfusion h
              · rw [if_neg hcf] at h
                obtain ⟨hst', hle⟩ := stepAdvance_inr _ _ h
                subst hst'
                exact Or.inl ⟨by simp, by simpa using hle⟩

/-- Fuel induction over the measure: any state within the step cap and
with measure below the fuel finishes. -/
theorem runLoop_total (S : Settings) (O : Oracles) (u : String) :
    ∀ (fuel : Nat) (st : LoopState), st.step ≤ 50 → muN st < fuel →
    (runLoop S O u fuel st).isSome = true := by
  intro fuel
  induction fuel with
  | zero => intro st _ hmu; exact absurd hmu (Nat.not_lt_zero _)
  | succ n ih =>
    intro st hstep hmu
    unfold runLoop
    cases hp : loopPass S O u st with
    | inl r => simp
    | inr st' =>
      have hm := loopPass_measure S O u st st' hp
      have hp2 := phaseN_le st'
      have hp3 := phaseN_le st
      have hstep' : st'.step ≤ 50 := by
        rcases hm with ⟨h1, h2⟩ | ⟨h1, h2⟩ <;> omega
      have hmu' : muN st' < n := by
        unfold muN at hmu ⊢
        rcases hm with ⟨h1, h2⟩ | ⟨h1, h2⟩ <;> omega
      have hsome := ih st' hstep' hmu'
      cases hr : runLoop S O u n st' with
      | none => rw [hr] at hsome; simp at hsome
      | some p => simp [hr]

/-- **C2 (amended).** The agent loop always terminates: for every setting,
every model/tool/clock behaviour and every user message, the run returns
within 153 passes (first conjunct — the step counter alone does not bound
the passes, since the selector-error and quality-retry `continue` paths
skip the `step += 1`, but each such path reaches a returning state within
two further passes).  The hard cap itself holds for the counted passes:
whenever the end-of-pass increment runs with the step counter already at
50 or more, the pass returns the `Max iterations reached` Graceful Stop
response (second conjunct). -/
theorem claim_C2 :
    (∀ (S : Settings) (O : Oracles) (u sid rid : String),
      ∃ out, runLoop S O u 153 (initLoopState S sid rid) = some out)
    ∧ (∀ st : LoopState, 50 ≤ st.step →
      stepAdvance st = .inl (gracefulStopResponse st "Max iterations reached")) := by
  constructor
  · intro S O u sid rid
    have hs : (initLoopState S sid rid).step ≤ 50 := by simp [initLoopState]
    have hmu : muN (initLoopState S sid rid) < 153 := by
      unfold muN phaseN initLoopState
      simp
    exact Option.isSome_iff_exists.mp (runLoop_total S O u 153 (initLoopState S sid rid) hs hmu)
  · intro st hst
    unfold stepAdvance
    rw [if_pos (by omega)]

set_option maxRecDepth 40000 in
/-- **C2 as frozen is false in its cap accounting**: a concrete run (echo
turn, 47 empty model turns, an unknown-tool turn whose selector error text
fails the quality check) makes 53 loop passes before returning — more than
the fixed iteration cap of 50 — because the selector-error pass and the
quality-retry pass do not increment the capped step counter. -/
theorem claim_C2_counterexample :
    passCountOf (runLoop cexC2Settings cexC2Oracles "m" 60
        (initLoopState cexC2Settings "s" "r")) = some 53
    ∧ 50 < 53 :=
  ⟨by decide, by decide⟩

/-- Witness for C2: the termination bound at a concrete environment, and
the cap conjunct at a concrete state with step 50. -/
theorem claim_C2_witness :
    (∃ out, runLoop cexC2Settings trivialOracles "m" 153
        (initLoopState cexC2Settings "s" "r") = some out)
    ∧ stepAdvance { initLoopState cexC2Settings "s" "r" with step := 50 } =
        .inl (gracefulStopResponse
          { initLoopState cexC2Settings "s" "r" with step := 50 }
          "Max iterations reached") :=
  ⟨claim_C2.1 cexC2Settings trivialOracles "m" "s" "r",
   claim_C2.2 { initLoopState cexC2Settings "s" "r" with step := 50 } (by decide)⟩

end Agent
